import Mathlib

/-!
Shallow embedding of `pop_db.py`, the dependency-ordered synthetic-data
loader for the OCP6 pizza-delivery schema.

External collaborators are modelled as explicit inputs:
* the randomness source (`random.*`) is a threaded linear-congruential
  state `Rng`;
* the fake-value provider (`Faker`) is a family of functions
  `Nat → String` (or `Nat → Rat` for float amounts) indexed by the call
  counter of the enclosing loop;
* the persistence gateway is a pure `Db` record of tables, where an
  INSERT appends a row carrying the next fresh identifier and a SELECT
  reads a whole table, exactly as the Python `records` queries do.
-/

/-- Explicit state of the `random` module, threaded linearly.  A single
linear-congruential step stands in for one draw from the source. -/
structure Rng where
  seed : Nat
deriving Repr, DecidableEq

/-- One draw: a raw 32-bit value plus the advanced state. -/
def Rng.next (r : Rng) : Nat × Rng :=
  let s := (r.seed * 1664525 + 1013904223) % 4294967296
  (s, ⟨s⟩)

/-- A draw reduced below `n` (the index step inside `random.choice` and
`random.shuffle`). -/
def randBelow (r : Rng) (n : Nat) : Nat × Rng :=
  let (v, r2) := r.next
  (v % n, r2)

/-- `random.choice(seq)`: uniform pick; raises on an empty sequence. -/
def randChoice {α : Type} : List α → Rng → Except String (α × Rng)
  | [], _ => .error "Cannot choose from empty sequence"
  | x :: xs, r =>
    let (k, r2) := randBelow r (xs.length + 1)
    .ok ((x :: xs).getD k x, r2)

/-- `random.choice((True, False))`. -/
def randCoin (r : Rng) : Bool × Rng :=
  let (k, r2) := randBelow r 2
  (k = 0, r2)

/-- `random.randint(lo, hi)` (both bounds inclusive). -/
def randInt (r : Rng) (lo hi : Nat) : Nat × Rng :=
  let (k, r2) := randBelow r (hi + 1 - lo)
  (lo + k, r2)

/-- Map over a list while threading the randomness state (a Python
list comprehension whose body draws from `random`). -/
def mapRng {α β : Type} (f : Rng → α → β × Rng) : Rng → List α → List β × Rng
  | r, [] => ([], r)
  | r, x :: xs =>
    let (y, r2) := f r x
    let (ys, r3) := mapRng f r2 xs
    (y :: ys, r3)

/-- Fuelled pick-and-remove shuffle; the fuel is the list length. -/
def shuffleAux {α : Type} : Nat → List α → Rng → List α × Rng
  | 0, _, r => ([], r)
  | _ + 1, [], r => ([], r)
  | n + 1, x :: xs, r =>
    let k := (randBelow r (x :: xs).length).1
    let r2 := (randBelow r (x :: xs).length).2
    let rec2 := shuffleAux n ((x :: xs).take k ++ (x :: xs).drop (k + 1)) r2
    ((x :: xs).getD k x :: rec2.1, rec2.2)

/-- `random.shuffle(seq)`: rng-driven permutation of the list, modelled
by pick-and-remove.  Since the Python call mutates its argument in
place, every embedded caller returns the shuffled list alongside its
other results. -/
def shuffle {α : Type} (l : List α) (r : Rng) : List α × Rng :=
  shuffleAux l.length l r

theorem mapRng_length {α β : Type} (f : Rng → α → β × Rng) :
    ∀ (r : Rng) (l : List α), ((mapRng f r l).1).length = l.length := by
  intro r l
  induction l generalizing r with
  | nil => simp [mapRng]
  | cons x xs ih => simp [mapRng, ih]

theorem randChoice_ne_nil {α : Type} (l : List α) (r : Rng) (h : l ≠ []) :
    ∃ a r2, randChoice l r = .ok (a, r2) ∧ a ∈ l := by
  match l with
  | [] => exact absurd rfl h
  | x :: xs =>
    refine ⟨(x :: xs).getD ((randBelow r (xs.length + 1)).1) x,
      (randBelow r (xs.length + 1)).2, rfl, ?_⟩
    have hk : (randBelow r (xs.length + 1)).1 < (x :: xs).length := by
      simp only [randBelow, List.length_cons]
      exact Nat.mod_lt _ (Nat.succ_pos _)
    rw [List.getD_eq_getElem?_getD, List.getElem?_eq_getElem hk, Option.getD_some]
    exact List.getElem_mem _

theorem shuffleAux_perm {α : Type} :
    ∀ (n : Nat) (l : List α) (r : Rng), l.length = n →
      ((shuffleAux n l r).1).Perm l := by
  intro n
  induction n with
  | zero =>
    intro l r hl
    rw [List.length_eq_zero] at hl
    subst hl
    simp [shuffleAux]
  | succ n ih =>
    intro l r hl
    match l with
    | [] => simp at hl
    | x :: xs =>
      have hpos : 0 < (x :: xs).length := Nat.succ_pos _
      have hk : (randBelow r (x :: xs).length).1 < (x :: xs).length := by
        simp only [randBelow]
        exact Nat.mod_lt _ hpos
      have hrest : ((x :: xs).take ((randBelow r (x :: xs).length).1)
          ++ (x :: xs).drop ((randBelow r (x :: xs).length).1 + 1)).length = n := by
        rw [List.length_append, List.length_take, List.length_drop]
        simp only [List.length_cons] at hl hk ⊢
        omega
      have hperm := ih _ (randBelow r (x :: xs).length).2 hrest
      simp only [shuffleAux]
      refine List.Perm.trans (List.Perm.cons _ hperm) ?_
      have hget : (x :: xs).getD ((randBelow r (x :: xs).length).1) x
          = (x :: xs)[(randBelow r (x :: xs).length).1] := by
        rw [List.getD_eq_getElem?_getD, List.getElem?_eq_getElem hk, Option.getD_some]
      rw [hget]
      have hmid := (@List.perm_middle α ((x :: xs)[(randBelow r (x :: xs).length).1])
        ((x :: xs).take ((randBelow r (x :: xs).length).1))
        ((x :: xs).drop ((randBelow r (x :: xs).length).1 + 1))).symm
      have hsplit : (x :: xs).take ((randBelow r (x :: xs).length).1)
          ++ (x :: xs)[(randBelow r (x :: xs).length).1]
             :: (x :: xs).drop ((randBelow r (x :: xs).length).1 + 1) = x :: xs := by
        rw [List.getElem_cons_drop, List.take_append_drop]
      refine List.Perm.trans hmid ?_
      rw [hsplit]

theorem shuffle_perm {α : Type} (l : List α) (r : Rng) :
    ((shuffle l r).1).Perm l :=
  shuffleAux_perm l.length l r rfl

theorem shuffle_length {α : Type} (l : List α) (r : Rng) :
    ((shuffle l r).1).length = l.length :=
  (shuffle_perm l r).length_eq

/-! ## Entity records (the `@dataclass` tuple classes) -/

/-- Tuples for the Member table. -/
structure Member where
  name : String
  firstname : String
  works_at_pizzeria_id : Option Nat
  user_account_id : Option Nat
  address_id : Nat
deriving Repr, DecidableEq

/-- Tuples for the Address table. -/
structure Address where
  street_name : String
  home_number : String
  zip_code : String
  country : Option String := some "France"
deriving Repr, DecidableEq

/-- Tuples for the UserAccount table. -/
structure UserAccount where
  email : String
  phone_nb : String
  member_id : Nat
  hashed_pwd : String
deriving Repr, DecidableEq

/-- Tuples for the TakenOrder table. -/
structure TakenOrder where
  member_id : Nat
  address_id : Nat
  status_id : Nat
  pizzeria_id : Nat
  is_paid : Bool
  bill_id : Option Nat := none
deriving Repr, DecidableEq

/-- Tuples for the Bill table. -/
structure Bill where
  emission_date : String
  total_amout_ati : Rat
  order_id : Nat
deriving Repr, DecidableEq

/-- Tuples for the Product table. -/
structure Product where
  name : String
  barcode : String
  gram_weight : Nat
  unit_price_ati : Rat
deriving Repr, DecidableEq

/-- Tuples for the Pizzeria table. -/
structure Pizzeria where
  name : String
  phone_nb : String
  address_id : Option Nat
deriving Repr, DecidableEq

/-- Tuples for the Recipe table. -/
structure Recipe where
  name : String
  description : String
  is_public : Bool := false
deriving Repr, DecidableEq

/-- Tuples for the CatalogItem table. -/
structure CatalogItem where
  name : String
  description : String
  picture_file : String
  unit_price_ati : Rat
  is_available : Bool
  is_displayed : Bool
  recipe_id : Option Nat := none
  product_id : Option Nat := none
deriving Repr, DecidableEq

/-- Tuples for the Role table. -/
structure Role where
  name : String
deriving Repr, DecidableEq

/-- Tuples for the Permission table. -/
structure Permission where
  label : String
deriving Repr, DecidableEq

/-- Tuples for the OrderStatus table. -/
structure OrderStatus where
  label : String
deriving Repr, DecidableEq

/-- Tuples for the Keyword table. -/
structure Keyword where
  name : String
deriving Repr, DecidableEq

/-! ## String normalization helpers used by the Fake* constructors -/

/-- `re.match(r'^(\d+),?(.*)$', street)` followed by extraction of the
two groups: a maximal leading digit run, an optional comma, and the
rest of the line.  `none` when the line does not start with a digit. -/
def parseStreet (s : String) : Option (String × String) :=
  let digits := s.data.takeWhile Char.isDigit
  if digits = [] then none
  else
    let rest := s.data.drop digits.length
    let rest2 := match rest with
      | ',' :: r => r
      | r => r
    some (⟨digits⟩, ⟨rest2⟩)

/-- Python `str.title()`: upper-case every alphabetic character that
follows a non-alphabetic one, lower-case the others. -/
def titleAux : Bool → List Char → List Char
  | _, [] => []
  | prev, c :: cs =>
    if c.isAlpha then (if prev then c.toLower else c.toUpper) :: titleAux true cs
    else c :: titleAux false cs

/-- Python `str.title()` on a string. -/
def titlecase (s : String) : String := ⟨titleAux false s.data⟩

/-- Python `str.replace(' ', '')`: drop every space character. -/
def dropSpaces (s : String) : String := ⟨s.data.filter (fun c => c ≠ ' ')⟩

/-- Keep only digit characters (the `\D` part of the phone regexes). -/
def digitsOnly (s : String) : String := ⟨s.data.filter Char.isDigit⟩

/-- `re.sub(r'^\+33|\D', '', s)`: one anchored "+33" prefix is removed,
then every non-digit character is dropped. -/
def userPhoneDigits (s : String) : String :=
  if s.startsWith "+33" then digitsOnly (s.drop 3) else digitsOnly s

/-- `re.sub(r'\+33|\D', '', s)` on the character list: every "+33"
occurrence is removed whole, every other non-digit is dropped. -/
def pizzeriaPhoneChars : List Char → List Char
  | [] => []
  | '+' :: '3' :: '3' :: rest => pizzeriaPhoneChars rest
  | c :: rest =>
    if c.isDigit then c :: pizzeriaPhoneChars rest else pizzeriaPhoneChars rest

/-- Phone cleanup of `FakeUserAccount.__init__`, including the
leading-zero padding applied when fewer than 10 digits remain. -/
def userPhone (raw : String) : String :=
  let stripped := userPhoneDigits raw
  if stripped.length < 10 then "0" ++ stripped else stripped

/-- Phone cleanup of `FakePizzeria.__init__`, including the
leading-zero padding applied when fewer than 10 digits remain. -/
def pizzeriaPhone (raw : String) : String :=
  let stripped : String := ⟨pizzeriaPhoneChars raw.data⟩
  if stripped.length < 10 then "0" ++ stripped else stripped

/-! ## Fake* constructors -/

/-- `FakeMember.__init__`: the fake surname and first name come from
the provider; `user_account_id` starts out null (phase 2 fills it). -/
def FakeMember.make (lastName firstName : String) (pizzeria_id : Option Nat)
    (address_id : Nat) : Member :=
  { name := lastName, firstname := firstName,
    works_at_pizzeria_id := pizzeria_id,
    user_account_id := none, address_id := address_id }

/-- The body of `FakeAddress.__init__` once the street line has been
isolated: parse it as "<number>, <street>", falling back to the
provider's synthesized building number on a parse failure, so
construction never fails. -/
def FakeAddress.fromStreet (street buildingNumber postcode : String) : Address :=
  match parseStreet street with
  | some (num, rest) =>
    { street_name := titlecase rest.trimLeft, home_number := num,
      zip_code := dropSpaces postcode, country := some "France" }
  | none =>
    { street_name := street.trimRight, home_number := buildingNumber,
      zip_code := dropSpaces postcode, country := some "France" }

/-- `FakeAddress.__init__`: the street line is the first line of the
provider's free-text address. -/
def FakeAddress.make (rawAddress buildingNumber postcode : String) : Address :=
  FakeAddress.fromStreet ((rawAddress.splitOn "\n").headD "") buildingNumber
    postcode

/-- `FakeUserAccount.__init__`: the password hash of a random printable
sample is an external primitive, modelled as the provided string. -/
def FakeUserAccount.make (member_id : Nat) (email rawPhone hashedPwd : String) :
    UserAccount :=
  { email := email, phone_nb := userPhone rawPhone,
    member_id := member_id, hashed_pwd := hashedPwd }

/-- `FakeTakenOrder.__init__`: draws a status from the pool and a coin
for `is_paid`; `random.choice` on an empty status pool raises. -/
def FakeTakenOrder.make (member_id address_id pizzeria_id : Nat)
    (order_status_ids : List Nat) (r : Rng) : Except String (TakenOrder × Rng) :=
  match randChoice order_status_ids r with
  | .error e => .error e
  | .ok (st, r2) =>
    .ok ({ member_id := member_id, address_id := address_id, status_id := st,
           pizzeria_id := pizzeria_id, is_paid := (randCoin r2).1,
           bill_id := none }, (randCoin r2).2)

/-- `FakeBill.__init__`. -/
def FakeBill.make (order_id : Nat) (emissionDate : String) (amount : Rat) : Bill :=
  { emission_date := emissionDate, total_amout_ati := amount, order_id := order_id }

/-- `FakeProduct.__init__`: `gram_weight = random.randint(20, 2000) * 5`. -/
def FakeProduct.make (name barcode : String) (price : Rat) (r : Rng) :
    Product × Rng :=
  let (g, r2) := randInt r 20 2000
  ({ name := name, barcode := barcode, gram_weight := g * 5,
     unit_price_ati := price }, r2)

/-- `FakePizzeria.__init__`. -/
def FakePizzeria.make (name : String) (address_id : Option Nat)
    (rawPhone : String) : Pizzeria :=
  { name := name, phone_nb := pizzeriaPhone rawPhone, address_id := address_id }

/-- `FakeRecipe.__init__`: coin flip for `is_public`. -/
def FakeRecipe.make (name description : String) (r : Rng) : Recipe × Rng :=
  let (pub, r2) := randCoin r
  ({ name := name, description := description, is_public := pub }, r2)

/-- `FakeCatalogItem.__init__`: the provider and coin draws happen
first; then the parent tag is dispatched, raising
`AttributeError('Unknown parent ...')` for any tag other than
"recipe" or "product". -/
def FakeCatalogItem.make (name parent : String) (parent_id : Nat)
    (description picture_file : String) (price : Rat) (r : Rng) :
    Except String (CatalogItem × Rng) :=
  let avail := (randCoin r).1
  let r2 := (randCoin r).2
  let disp := (randCoin r2).1
  let r3 := (randCoin r2).2
  if parent = "recipe" then
    .ok ({ name := name, description := description,
           picture_file := picture_file, unit_price_ati := price,
           is_available := avail, is_displayed := disp,
           recipe_id := some parent_id, product_id := none }, r3)
  else if parent = "product" then
    .ok ({ name := name, description := description,
           picture_file := picture_file, unit_price_ati := price,
           is_available := avail, is_displayed := disp,
           recipe_id := none, product_id := some parent_id }, r3)
  else
    .error (String.append "Unknown parent " parent)

/-! ## RandomDataGenerator: the entity value generators -/

/-- The fixed 35-entry product catalog of `RandomDataGenerator.products`. -/
def productNames : List String :=
  ["farine de blé", "tomate pelée", "pulpe de tomate",
   "mozzarella", "ananas", "parmesan", "viande hachée de boeuf",
   "saumon", "fromage de chèvre", "artichaut", "poivron",
   "thon", "oignon", "ail", "pâte", "oeuf", "mélange fruits de mer",
   "jambon", "jambon sec", "chorizo", "truffe", "petit pois",
   "viande de boeuf", "moule", "palourde", "coque",
   "farine d\x27épeautre", "langoustine", "écrevisse", "crevette rose",
   "crevette grise", "olive", "roquette", "basilic", "champignon"]

/-- The fixed store-name catalog of `RandomDataGenerator.pizzerias`
(the business currently has 5 stores). -/
def pizzeriaNames : List String :=
  ["OC Pizza #1", "OC Pizza bis", "The Best of OC Pizza",
   "OC Pizza Original", "OC Pizza\x27s"]

/-- The fixed recipe catalog of `RandomDataGenerator.recipes`. -/
def recipeNames : List String :=
  ["Spaghetti bolognaise", "Pizza regina", "Pizza calzone",
   "Pizza quatre saisons", "Pizza de la mer", "Ravioles au crabe",
   "Tagliatelle au saumon", "Pizza Margarita", "Pizza hawaïenne",
   "Pâtes à la carbonara", "Risotto à la truffe", "Minestrone",
   "Linguine aux fruits de mer", "Pâtes au pesto", "Lasagne",
   "Lasagne végétarienne", "Raviolis quatre fromages",
   "Escalope à la milanaise", "Carpaccio de boeuf",
   "Scalopine", "Pizza chèvre miel", "Pizza végétarienne",
   "Pizza napolitaine"]

/-- The fixed labels of `RandomDataGenerator.order_status`. -/
def orderStatusLabels : List String :=
  ["Panier", "En cours", "En attente", "Terminée"]

/-- The fixed labels of `RandomDataGenerator.keywords`. -/
def keywordNames : List String :=
  ["pizza", "pâtes", "végétarien", "poisson", "viande",
   "champignon", "spaghetti", "macaroni", "tagliatelle",
   "fromage", "chèvre", "artichaut", "parmesan", "gruyère",
   "tomate", "poivron", "thon", "saumon", "carbonara",
   "moule", "palourde", "crevette", "langoustine", "écrevisse",
   "porc", "boeuf", "poulet", "volaille", "oignon", "ail",
   "napolitain", "truffe", "veau", "pesto", "riz"]

/-- The fixed labels of `RandomDataGenerator.permissions`. -/
def permissionLabels : List String :=
  ["Modifier compte", "Créer compte", "Créer commande",
   "Consulter commande tierse", "Modifier compte tiers"]

/-- The fixed names of `RandomDataGenerator.roles`. -/
def roleNames : List String :=
  ["Client", "Gestionnaire", "Pizzaïolo", "Livreur",
   "Opérateur de commande"]

/-- `RandomDataGenerator.addresses(size)`: one fresh fake address per
iteration; the three provider functions are indexed by the loop
counter. -/
def RandomDataGenerator.addresses (size : Nat)
    (fakeAddressLine fakeBuildingNumber fakePostcode : Nat → String) :
    List Address :=
  (List.range size).map
    (fun i => FakeAddress.make (fakeAddressLine i) (fakeBuildingNumber i)
      (fakePostcode i))

/-- The generation loop of `RandomDataGenerator.members`: index `i`
walks the shuffled address list while `k` counts the remaining rows;
each row draws its optional pizzeria from the pre-drawn option pool. -/
def membersLoop (pizzeriaOpts : List (Option Nat)) (addrIds : List Nat)
    (fakeLast fakeFirst : Nat → String) :
    Nat → Nat → Rng → Except String (List Member × Rng)
  | _, 0, r => .ok ([], r)
  | i, k + 1, r =>
    match randChoice pizzeriaOpts r with
    | .error e => .error e
    | .ok (pz, r2) =>
      match membersLoop pizzeriaOpts addrIds fakeLast fakeFirst (i + 1) k r2 with
      | .error e => .error e
      | .ok (ms, r3) =>
        .ok (FakeMember.make (fakeLast i) (fakeFirst i) pz (addrIds.getD i 0) :: ms, r3)

/-- `RandomDataGenerator.members`: validates the address pool, maps the
pizzeria pool to `None`-or-id options, shuffles the address pool in
place, then yields `size` members.  The shuffled address list is
returned because the Python shuffle mutates the caller's list. -/
def RandomDataGenerator.members (address_ids pizzeria_ids : List Nat)
    (size : Nat) (r : Rng) (fakeLast fakeFirst : Nat → String) :
    Except String (List Member × List Nat × Rng) :=
  if address_ids.length < size then .error "Not enough address_ids"
  else
    let drawn := mapRng
      (fun r i =>
        let (k, r2) := randBelow r 2
        ((if k = 0 then none else some i), r2)) r pizzeria_ids
    let shuffled := shuffle address_ids drawn.2
    match membersLoop drawn.1 shuffled.1 fakeLast fakeFirst 0 size shuffled.2 with
    | .error e => .error e
    | .ok (ms, r3) => .ok (ms, shuffled.1, r3)

/-- `RandomDataGenerator.user_accounts`: validates the member pool,
shuffles it in place, and yields `size` accounts over its prefix. -/
def RandomDataGenerator.user_accounts (member_ids : List Nat) (size : Nat)
    (r : Rng) (fakeEmail fakePhone fakePwd : Nat → String) :
    Except String (List UserAccount × List Nat × Rng) :=
  if member_ids.length < size then .error "Not enough member_ids"
  else
    let shuffled := shuffle member_ids r
    .ok ((List.range size).map
      (fun i => FakeUserAccount.make (shuffled.1.getD i 0) (fakeEmail i)
        (fakePhone i) (fakePwd i)), shuffled.1, shuffled.2)

/-- The generation loop of `RandomDataGenerator.taken_orders`: each row
draws a member, an address and a pizzeria from the pools, then a
status and a coin inside `FakeTakenOrder`. -/
def takenOrdersLoop (member_ids address_ids pizzeria_ids order_status_ids : List Nat) :
    Nat → Rng → Except String (List TakenOrder × Rng)
  | 0, r => .ok ([], r)
  | k + 1, r =>
    match randChoice member_ids r with
    | .error e => .error e
    | .ok (m, r2) =>
      match randChoice address_ids r2 with
      | .error e => .error e
      | .ok (a, r3) =>
        match randChoice pizzeria_ids r3 with
        | .error e => .error e
        | .ok (p, r4) =>
          match FakeTakenOrder.make m a p order_status_ids r4 with
          | .error e => .error e
          | .ok (t, r5) =>
            match takenOrdersLoop member_ids address_ids pizzeria_ids
                order_status_ids k r5 with
            | .error e => .error e
            | .ok (ts, r6) => .ok (t :: ts, r6)

/-- `RandomDataGenerator.taken_orders`: validates the member pool, then
the address pool, shuffles both in place, and yields `size` orders.
Both shuffled pools are returned (in-place mutation). -/
def RandomDataGenerator.taken_orders
    (member_ids address_ids pizzeria_ids order_status_ids : List Nat)
    (size : Nat) (r : Rng) :
    Except String (List TakenOrder × List Nat × List Nat × Rng) :=
  if member_ids.length < size then .error "Not enough member_ids"
  else if address_ids.length < size then .error "Not enough address_ids"
  else
    let m2 := shuffle member_ids r
    let a2 := shuffle address_ids m2.2
    match takenOrdersLoop m2.1 a2.1 pizzeria_ids order_status_ids size a2.2 with
    | .error e => .error e
    | .ok (ts, r3) => .ok (ts, m2.1, a2.1, r3)

/-- `RandomDataGenerator.bills`: validates the taken-order pool, then
yields one bill per pool entry prefix position (no shuffle here). -/
def RandomDataGenerator.bills (taken_order_ids : List Nat) (size : Nat)
    (fakeDate : Nat → String) (fakeAmount : Nat → Rat) :
    Except String (List Bill) :=
  if taken_order_ids.length < size then .error "Not enough taken_order_ids"
  else
    .ok ((List.range size).map
      (fun i => FakeBill.make (taken_order_ids.getD i 0) (fakeDate i)
        (fakeAmount i)))

/-- `RandomDataGenerator.products`: one product per fixed catalog name. -/
def RandomDataGenerator.products (r : Rng) (fakeBarcode : Nat → String)
    (fakePrice : Nat → Rat) : List Product × Rng :=
  mapRng (fun r p => FakeProduct.make p.2 (fakeBarcode p.1) (fakePrice p.1) r)
    r productNames.enum

/-- `RandomDataGenerator.pizzerias`: when fewer than 5 address ids are
available the list is padded with five nulls and shuffled in place;
then one pizzeria per fixed store name takes the id at its index.  The
(possibly mutated) id list is returned. -/
def RandomDataGenerator.pizzerias (address_ids : List (Option Nat)) (r : Rng)
    (fakePhone : Nat → String) : List Pizzeria × List (Option Nat) × Rng :=
  let padded :=
    if address_ids.length < 5
    then shuffle (address_ids ++ List.replicate 5 none) r
    else (address_ids, r)
  (pizzeriaNames.enum.map
    (fun p => FakePizzeria.make p.2 (padded.1.getD p.1 none) (fakePhone p.1)),
   padded.1, padded.2)

/-- `RandomDataGenerator.recipes`: one recipe per fixed catalog name. -/
def RandomDataGenerator.recipes (r : Rng) (fakeDescription : Nat → String) :
    List Recipe × Rng :=
  mapRng (fun r p => FakeRecipe.make p.2 (fakeDescription p.1) r)
    r recipeNames.enum

/-- The generation loop of `RandomDataGenerator.catalog_items` over the
name→id mapping (insertion-ordered, as a Python dict is). -/
def catalogItemsLoop (fakeDescription fakePicture : Nat → String)
    (fakePrice : Nat → Rat) :
    Nat → List (String × Nat) → Rng → Except String (List CatalogItem × Rng)
  | _, [], r => .ok ([], r)
  | i, (name, rid) :: rest, r =>
    match FakeCatalogItem.make name "recipe" rid (fakeDescription i)
        (fakePicture i) (fakePrice i) r with
    | .error e => .error e
    | .ok (item, r2) =>
      match catalogItemsLoop fakeDescription fakePicture fakePrice
          (i + 1) rest r2 with
      | .error e => .error e
      | .ok (items, r3) => .ok (item :: items, r3)

/-- `RandomDataGenerator.catalog_items(recipes)`: one catalog item per
entry of the recipe name→id mapping, always with parent "recipe". -/
def RandomDataGenerator.catalog_items (recipes : List (String × Nat))
    (r : Rng) (fakeDescription fakePicture : Nat → String)
    (fakePrice : Nat → Rat) : Except String (List CatalogItem × Rng) :=
  catalogItemsLoop fakeDescription fakePicture fakePrice 0 recipes r

/-- `RandomDataGenerator.order_status`. -/
def RandomDataGenerator.order_status : List OrderStatus :=
  orderStatusLabels.map OrderStatus.mk

/-- `RandomDataGenerator.keywords`. -/
def RandomDataGenerator.keywords : List Keyword :=
  keywordNames.map Keyword.mk

/-- `RandomDataGenerator.permissions`. -/
def RandomDataGenerator.permissions : List Permission :=
  permissionLabels.map Permission.mk

/-- `RandomDataGenerator.roles`. -/
def RandomDataGenerator.roles : List Role :=
  roleNames.map Role.mk

/-- `RandomDataGenerator.has_permission_to`: a sampled association row
for the Role↔Permission relation. -/
def RandomDataGenerator.has_permission_to (role_ids permission_ids : List Nat)
    (r : Rng) : Except String ((Nat × Nat) × Rng) :=
  match randChoice role_ids r with
  | .error e => .error e
  | .ok (rid, r2) =>
    match randChoice permission_ids r2 with
    | .error e => .error e
    | .ok (pid, r3) => .ok ((rid, pid), r3)

/-! ## Persistence gateway state and the DatabaseFeeder stages -/

/-- A persisted Address row: the store-assigned id plus the tuple. -/
structure AddressRow where
  id : Nat
  row : Address
deriving Repr, DecidableEq

/-- A persisted Member row.  The table carries a `role_id` column that
the `Member` dataclass does not mention: the INSERT leaves it null and
only the phase-2 update writes it. -/
structure MemberRow where
  id : Nat
  name : String
  firstname : String
  works_at_pizzeria_id : Option Nat
  user_account_id : Option Nat
  address_id : Nat
  role_id : Option Nat := none
deriving Repr, DecidableEq

/-- A persisted UserAccount row. -/
structure UserAccountRow where
  id : Nat
  row : UserAccount
deriving Repr, DecidableEq

/-- A persisted TakenOrder row. -/
structure TakenOrderRow where
  id : Nat
  row : TakenOrder
deriving Repr, DecidableEq

/-- A persisted Bill row. -/
structure BillRow where
  id : Nat
  row : Bill
deriving Repr, DecidableEq

/-- The relational store reached through the gateway: each INSERT
appends a row with the next fresh serial id; each `SELECT id FROM t`
reads the whole table.  Only the tables the verified stages touch are
modelled. -/
structure Db where
  addressTable : List AddressRow := []
  nextAddressId : Nat := 1
  memberTable : List MemberRow := []
  nextMemberId : Nat := 1
  userAccountTable : List UserAccountRow := []
  nextUserAccountId : Nat := 1
  takenOrderTable : List TakenOrderRow := []
  nextTakenOrderId : Nat := 1
  billTable : List BillRow := []
  nextBillId : Nat := 1
deriving Repr, DecidableEq

/-- `INSERT INTO address ...`. -/
def Db.insertAddress (db : Db) (a : Address) : Db :=
  { db with
    addressTable := db.addressTable ++ [{ id := db.nextAddressId, row := a }],
    nextAddressId := db.nextAddressId + 1 }

/-- `INSERT INTO member ...` (the `role_id` column stays null). -/
def Db.insertMember (db : Db) (m : Member) : Db :=
  { db with
    memberTable := db.memberTable ++
      [{ id := db.nextMemberId, name := m.name, firstname := m.firstname,
         works_at_pizzeria_id := m.works_at_pizzeria_id,
         user_account_id := m.user_account_id,
         address_id := m.address_id, role_id := none }],
    nextMemberId := db.nextMemberId + 1 }

/-- `INSERT INTO user_account ...`. -/
def Db.insertUserAccount (db : Db) (u : UserAccount) : Db :=
  { db with
    userAccountTable := db.userAccountTable ++
      [{ id := db.nextUserAccountId, row := u }],
    nextUserAccountId := db.nextUserAccountId + 1 }

/-- `INSERT INTO taken_order ...`. -/
def Db.insertTakenOrder (db : Db) (t : TakenOrder) : Db :=
  { db with
    takenOrderTable := db.takenOrderTable ++
      [{ id := db.nextTakenOrderId, row := t }],
    nextTakenOrderId := db.nextTakenOrderId + 1 }

/-- `INSERT INTO bill ...`. -/
def Db.insertBill (db : Db) (b : Bill) : Db :=
  { db with
    billTable := db.billTable ++ [{ id := db.nextBillId, row := b }],
    nextBillId := db.nextBillId + 1 }

/-- `UPDATE member SET user_account_id = ... WHERE id = ...`. -/
def Db.setMemberUserAccount (db : Db) (mid uaid : Nat) : Db :=
  { db with
    memberTable := db.memberTable.map
      (fun m => if m.id = mid then { m with user_account_id := some uaid } else m) }

/-- `UPDATE member SET role_id = ... WHERE id = ...`. -/
def Db.setMemberRole (db : Db) (mid rid : Nat) : Db :=
  { db with
    memberTable := db.memberTable.map
      (fun m => if m.id = mid then { m with role_id := some rid } else m) }

/-- The Reference Pool attributes of `DatabaseFeeder` (captured ids). -/
structure Feeder where
  size : Nat := 10
  address_ids : List Nat := []
  pizzeria_ids : List Nat := []
  member_ids : List Nat := []
  user_accounts : List (Nat × Nat) := []
  taken_order_ids : List Nat := []
  order_status_ids : List Nat := []
  role_ids : List Nat := []
deriving Repr, DecidableEq

/-- `DatabaseFeeder._insert_addresses`: insert `size` generated rows,
then re-query `SELECT id FROM address` (the whole table) into the
pool. -/
def DatabaseFeeder.insertAddresses (fd : Feeder) (db : Db)
    (fakeAddressLine fakeBuildingNumber fakePostcode : Nat → String) :
    Feeder × Db :=
  let db2 := (RandomDataGenerator.addresses fd.size fakeAddressLine
    fakeBuildingNumber fakePostcode).foldl Db.insertAddress db
  ({ fd with address_ids := db2.addressTable.map AddressRow.id }, db2)

/-- `DatabaseFeeder._insert_members`: run the generator (which may
raise, and which shuffles `self.address_ids` in place), insert each
row, then re-query `SELECT id FROM member` (the whole table). -/
def DatabaseFeeder.insertMembers (fd : Feeder) (db : Db) (r : Rng)
    (fakeLast fakeFirst : Nat → String) :
    Except String (Feeder × Db × Rng) :=
  match RandomDataGenerator.members fd.address_ids fd.pizzeria_ids fd.size r
      fakeLast fakeFirst with
  | .error e => .error e
  | .ok (ms, shuffledAddr, r2) =>
    let db2 := ms.foldl Db.insertMember db
    .ok ({ fd with
            address_ids := shuffledAddr,
            member_ids := db2.memberTable.map MemberRow.id }, db2, r2)

/-- `DatabaseFeeder._insert_user_accounts`: run the generator (which
may raise, and which shuffles `self.member_ids` in place), insert each
row, then re-query `SELECT id, member_id FROM user_account` into the
member→account mapping. -/
def DatabaseFeeder.insertUserAccounts (fd : Feeder) (db : Db) (r : Rng)
    (fakeEmail fakePhone fakePwd : Nat → String) :
    Except String (Feeder × Db × Rng) :=
  match RandomDataGenerator.user_accounts fd.member_ids fd.size r
      fakeEmail fakePhone fakePwd with
  | .error e => .error e
  | .ok (uas, shuffledMem, r2) =>
    let db2 := uas.foldl Db.insertUserAccount db
    .ok ({ fd with
            member_ids := shuffledMem,
            user_accounts := db2.userAccountTable.map
              (fun ua => (ua.row.member_id, ua.id)) }, db2, r2)

/-- `DatabaseFeeder._insert_taken_orders`. -/
def DatabaseFeeder.insertTakenOrders (fd : Feeder) (db : Db) (r : Rng) :
    Except String (Feeder × Db × Rng) :=
  match RandomDataGenerator.taken_orders fd.member_ids fd.address_ids
      fd.pizzeria_ids fd.order_status_ids fd.size r with
  | .error e => .error e
  | .ok (ts, m2, a2, r2) =>
    let db2 := ts.foldl Db.insertTakenOrder db
    .ok ({ fd with
            member_ids := m2,
            address_ids := a2,
            taken_order_ids := db2.takenOrderTable.map TakenOrderRow.id },
         db2, r2)

/-- `DatabaseFeeder._insert_bills` (captures no ids). -/
def DatabaseFeeder.insertBills (fd : Feeder) (db : Db)
    (fakeDate : Nat → String) (fakeAmount : Nat → Rat) :
    Except String (Feeder × Db) :=
  match RandomDataGenerator.bills fd.taken_order_ids fd.size fakeDate
      fakeAmount with
  | .error e => .error e
  | .ok bs => .ok (fd, bs.foldl Db.insertBill db)

/-- `DatabaseFeeder._update_members_user_account`: one UPDATE per
captured member→account pair. -/
def DatabaseFeeder.updateMembersUserAccount (fd : Feeder) (db : Db) : Db :=
  fd.user_accounts.foldl (fun d p => d.setMemberUserAccount p.1 p.2) db

/-- The UPDATE loop of `_update_members_role` over the selected staff
member ids, drawing one uniformly-random role id per member. -/
def roleUpdateLoop (role_ids : List Nat) :
    List Nat → Db → Rng → Except String (Db × Rng)
  | [], db, r => .ok (db, r)
  | mid :: rest, db, r =>
    match randChoice role_ids r with
    | .error e => .error e
    | .ok (rid, r2) => roleUpdateLoop role_ids rest (db.setMemberRole mid rid) r2

/-- `DatabaseFeeder._update_members_role`: select the staff members
(`works_at_pizzeria_id IS NOT NULL`), then one role UPDATE each. -/
def DatabaseFeeder.updateMembersRole (db : Db) (role_ids : List Nat) (r : Rng) :
    Except String (Db × Rng) :=
  roleUpdateLoop role_ids
    ((db.memberTable.filter (fun m => m.works_at_pizzeria_id.isSome)).map
      MemberRow.id) db r

/-! ## The populate pass: stage order -/

/-- The stages `DatabaseFeeder.populate` runs, as named steps. -/
inductive Stage where
  | insertAddresses
  | insertPizzerias
  | insertMembers
  | insertUserAccounts
  | updateMembersUserAccount
  | insertRecipes
  | insertProducts
  | insertCatalogItems
  | insertOrderStatus
  | insertTakenOrders
  | insertBills
  | insertKeywords
  | insertPermissions
  | insertRoles
  | updateMembersRole
  | insertRelationsManyToMany
deriving Repr, DecidableEq, BEq

/-- The exact call sequence in the body of `DatabaseFeeder.populate`. -/
def DatabaseFeeder.populateStages : List Stage :=
  [.insertAddresses, .insertPizzerias, .insertMembers, .insertUserAccounts,
   .updateMembersUserAccount, .insertRecipes, .insertProducts,
   .insertCatalogItems, .insertOrderStatus, .insertTakenOrders,
   .insertBills, .insertKeywords, .insertPermissions, .insertRoles,
   .updateMembersRole, .insertRelationsManyToMany]

/-- The phase-1 insertion stages (everything that INSERTs rows). -/
def phase1Inserts : List Stage :=
  [.insertAddresses, .insertPizzerias, .insertMembers, .insertUserAccounts,
   .insertRecipes, .insertProducts, .insertCatalogItems, .insertOrderStatus,
   .insertTakenOrders, .insertBills, .insertKeywords, .insertPermissions,
   .insertRoles]

/-- The two phase-2 member updates. -/
def phase2Updates : List Stage :=
  [.updateMembersUserAccount, .updateMembersRole]

/-- Position of a stage in the populate pass. -/
def stageIndex (s : Stage) : Nat :=
  DatabaseFeeder.populateStages.indexOf s

/-! ## The association populator -/

/-- Gateway failure modes: the distinguishable uniqueness/integrity
conflict (`sqlalchemy.exc.IntegrityError`) versus everything else. -/
inductive DbError where
  | integrity
  | other (msg : String)
deriving Repr, DecidableEq

/-- The inner `for i in range(self.size): try callback() except
IntegrityError: pass` loop, instrumented with the number of attempts
actually made.  An integrity conflict leaves the state untouched and
the loop continues; any other gateway error propagates. -/
def runRelationLoop {σ : Type} (callback : σ → Except DbError σ) :
    Nat → σ → Except String (σ × Nat)
  | 0, st => .ok (st, 0)
  | n + 1, st =>
    match callback st with
    | .ok st2 =>
      match runRelationLoop callback n st2 with
      | .error e => .error e
      | .ok (st3, c) => .ok (st3, c + 1)
    | .error .integrity =>
      match runRelationLoop callback n st with
      | .error e => .error e
      | .ok (st3, c) => .ok (st3, c + 1)
    | .error (.other msg) => .error msg

/-- `DatabaseFeeder._insert_relations_many_to_many`: run the attempt
loop once per association-table callback, threading the store state,
and report the attempt count of every relation. -/
def DatabaseFeeder.insertRelationsManyToMany {σ : Type}
    (callbacks : List (σ → Except DbError σ)) (size : Nat) (st : σ) :
    Except String (σ × List Nat) :=
  match callbacks with
  | [] => .ok (st, [])
  | cb :: rest =>
    match runRelationLoop cb size st with
    | .error e => .error e
    | .ok (st2, c) =>
      match DatabaseFeeder.insertRelationsManyToMany rest size st2 with
      | .error e => .error e
      | .ok (st3, cs) => .ok (st3, c :: cs)

/-- An association table with a composite-key uniqueness constraint:
inserting an existing key raises the integrity conflict. -/
structure AssocTable where
  rows : List (Nat × Nat) := []
deriving Repr, DecidableEq

/-- One parameterized INSERT into an association table. -/
def AssocTable.insert (t : AssocTable) (key : Nat × Nat) :
    Except DbError AssocTable :=
  if key ∈ t.rows then .error .integrity
  else .ok { rows := t.rows ++ [key] }

/-- `DatabaseFeeder._insert_has_permission_to` as a callback over the
association store and the threaded randomness state. -/
def insertHasPermissionTo (role_ids permission_ids : List Nat) :
    AssocTable × Rng → Except DbError (AssocTable × Rng)
  | (t, r) =>
    match RandomDataGenerator.has_permission_to role_ids permission_ids r with
    | .error e => .error (.other e)
    | .ok (key, r2) =>
      match t.insert key with
      | .error e => .error e
      | .ok t2 => .ok (t2, r2)

/-! ## Supporting lemmas -/

/-- With the parent tag "recipe", `FakeCatalogItem` construction
succeeds and links the recipe id. -/
theorem fakeCatalogItem_recipe_ok (name : String) (rid : Nat) (d p : String)
    (pr : Rat) (r : Rng) :
    FakeCatalogItem.make name "recipe" rid d p pr r
      = .ok ({ name := name, description := d, picture_file := p,
               unit_price_ati := pr, is_available := (randCoin r).1,
               is_displayed := (randCoin (randCoin r).2).1,
               recipe_id := some rid, product_id := none },
             (randCoin (randCoin r).2).2) := by
  simp [FakeCatalogItem.make]

theorem catalogItemsLoop_ok (fakeDescription fakePicture : Nat → String)
    (fakePrice : Nat → Rat) :
    ∀ (recs : List (String × Nat)) (i : Nat) (r : Rng),
      ∃ items r3,
        catalogItemsLoop fakeDescription fakePicture fakePrice i recs r
          = .ok (items, r3)
        ∧ items.length = recs.length := by
  intro recs
  induction recs with
  | nil =>
    intro i r
    exact ⟨[], r, rfl, rfl⟩
  | cons hd tl ih =>
    intro i r
    obtain ⟨name, rid⟩ := hd
    obtain ⟨items, r3, hrun, hlen⟩ :=
      ih (i + 1) (randCoin (randCoin r).2).2
    refine ⟨{ name := name, description := fakeDescription i,
              picture_file := fakePicture i, unit_price_ati := fakePrice i,
              is_available := (randCoin r).1,
              is_displayed := (randCoin (randCoin r).2).1,
              recipe_id := some rid, product_id := none } :: items, r3, ?_, ?_⟩
    · simp only [catalogItemsLoop, fakeCatalogItem_recipe_ok, hrun]
    · simp [hlen]

/-- `FakeAddress` always defaults the country to "France". -/
theorem fakeAddress_country (street b p : String) :
    (FakeAddress.fromStreet street b p).country = some "France" := by
  rcases h : parseStreet street with - | ⟨num, rest⟩ <;>
    simp only [FakeAddress.fromStreet, h]

/-- `FakeAddress` copies the postal code through the space-dropping
replacement. -/
theorem fakeAddress_zip (street b p : String) :
    (FakeAddress.fromStreet street b p).zip_code = dropSpaces p := by
  rcases h : parseStreet street with - | ⟨num, rest⟩ <;>
    simp only [FakeAddress.fromStreet, h]

/-- `FakeAddress` strips every space from the postal code. -/
theorem fakeAddress_zip_no_space (street b p : String) :
    ' ' ∉ (FakeAddress.fromStreet street b p).zip_code.data := by
  rw [fakeAddress_zip]
  intro hmem
  rcases List.mem_filter.mp hmem with ⟨-, hkeep⟩
  simp at hkeep

/-! ## Claim C2: fixed-catalog generator lengths -/

/-- C2 counterexample: the recipe generator yields 23 records, not the
22 the claim states — `recipe_names` has 23 entries. -/
theorem c2_counterexample :
    ¬ ((RandomDataGenerator.recipes ⟨0⟩ (fun _ => "d")).1.length = 22) := by
  decide

/-- C2 (amended): for every run the recipes generator yields exactly
23 Recipe records (one per hard-coded name), the products generator
yields exactly 35 Product records, and the catalog-item generator, fed
a recipe name→id mapping, always succeeds and yields exactly one
CatalogItem per mapping entry — 23 rows when fed the 23 recipes. -/
theorem c2_generator_lengths (r r2 : Rng) (fdesc fbar fpic : Nat → String)
    (fprice fprice2 : Nat → Rat) (recs : List (String × Nat)) :
    (RandomDataGenerator.recipes r fdesc).1.length = 23
    ∧ (RandomDataGenerator.products r fbar fprice).1.length = 35
    ∧ (∃ items r3,
        RandomDataGenerator.catalog_items recs r2 fdesc fpic fprice2
          = .ok (items, r3)
        ∧ items.length = recs.length) := by
  refine ⟨?_, ?_, ?_⟩
  · rw [RandomDataGenerator.recipes, mapRng_length, List.enum_length]
    rfl
  · rw [RandomDataGenerator.products, mapRng_length, List.enum_length]
    rfl
  · exact catalogItemsLoop_ok fdesc fpic fprice2 recs 0 r2

/-! ## Claim C3: stage order of the populate pass -/

/-- C3 counterexample: it is not true that every phase-2 member update
runs after all phase-1 insertion stages — `_update_members_user_account`
is called right after `_insert_user_accounts`, before recipes,
products, catalog items, order statuses, taken orders, bills, keywords,
permissions and roles are inserted. -/
theorem c3_counterexample :
    ¬ (∀ u ∈ phase2Updates, ∀ s ∈ phase1Inserts, stageIndex s < stageIndex u) := by
  intro h
  have hlt := h Stage.updateMembersUserAccount (by simp [phase2Updates])
    Stage.insertRecipes (by simp [phase1Inserts])
  revert hlt
  decide

/-- C3 (amended): in the populate pass the role update (the second
phase-2 update) does run after every phase-1 insertion stage — in
particular after the Role identifiers are captured — but the
user-account update runs immediately after the user-account stage and
before the remaining phase-1 inserts; the association population comes
last. -/
theorem c3_stage_order :
    stageIndex Stage.insertUserAccounts < stageIndex Stage.updateMembersUserAccount
    ∧ stageIndex Stage.updateMembersUserAccount < stageIndex Stage.insertRecipes
    ∧ (∀ s ∈ phase1Inserts, stageIndex s < stageIndex Stage.updateMembersRole)
    ∧ stageIndex Stage.insertRoles < stageIndex Stage.updateMembersRole
    ∧ stageIndex Stage.updateMembersRole
        < stageIndex Stage.insertRelationsManyToMany := by
  refine ⟨by decide, by decide, ?_, by decide, by decide⟩
  intro s hs
  fin_cases hs <;> decide

/-- C3 witness: the bills stage, a phase-1 insertion, indeed precedes
the role update. -/
theorem c3_witness :
    stageIndex Stage.insertBills < stageIndex Stage.updateMembersRole :=
  c3_stage_order.2.2.1 Stage.insertBills (by simp [phase1Inserts])

/-! ## Claim C7: CatalogItem parent dispatch -/

/-- C7: constructing a catalog-item record raises the unknown-parent
error iff the parent kind is neither "recipe" nor "product"; every
successful construction links exactly one of `recipe_id`/`product_id`
(never both, never neither). -/
theorem c7_catalog_item_parent (name parent : String) (pid : Nat)
    (desc pic : String) (price : Rat) (r : Rng) :
    ((∃ e, FakeCatalogItem.make name parent pid desc pic price r = .error e)
      ↔ (parent ≠ "recipe" ∧ parent ≠ "product"))
    ∧ (∀ item r2,
        FakeCatalogItem.make name parent pid desc pic price r = .ok (item, r2) →
          (item.recipe_id = some pid ∧ item.product_id = none)
          ∨ (item.product_id = some pid ∧ item.recipe_id = none)) := by
  by_cases h1 : parent = "recipe"
  · subst h1
    constructor
    · constructor
      · rintro ⟨e, he⟩
        rw [fakeCatalogItem_recipe_ok] at he
        exact absurd he (by simp)
      · rintro ⟨hc, -⟩
        exact absurd rfl hc
    · intro item r2 h
      rw [fakeCatalogItem_recipe_ok] at h
      injection h with h
      injection h with hitem hrng
      subst hitem
      exact Or.inl ⟨rfl, rfl⟩
  · by_cases h2 : parent = "product"
    · subst h2
      have hok : FakeCatalogItem.make name "product" pid desc pic price r
          = .ok ({ name := name, description := desc, picture_file := pic,
                   unit_price_ati := price, is_available := (randCoin r).1,
                   is_displayed := (randCoin (randCoin r).2).1,
                   recipe_id := none, product_id := some pid },
                 (randCoin (randCoin r).2).2) := by
        simp [FakeCatalogItem.make]
      constructor
      · constructor
        · rintro ⟨e, he⟩
          rw [hok] at he
          exact absurd he (by simp)
        · rintro ⟨-, hc⟩
          exact absurd rfl hc
      · intro item r2 h
        rw [hok] at h
        injection h with h
        injection h with hitem hrng
        subst hitem
        exact Or.inr ⟨rfl, rfl⟩
    · have herr : FakeCatalogItem.make name parent pid desc pic price r
          = .error (String.append "Unknown parent " parent) := by
        simp [FakeCatalogItem.make, h1, h2]
      constructor
      · constructor
        · intro _
          exact ⟨h1, h2⟩
        · intro _
          exact ⟨_, herr⟩
      · intro item r2 h
        rw [herr] at h
        exact absurd h (by simp)

/-- C7 witness: a concrete "recipe"-parented construction succeeds and
links exactly the recipe side. -/
theorem c7_witness :
    (({ name := "n", description := "d", picture_file := "p",
        unit_price_ati := 0, is_available := false, is_displayed := true,
        recipe_id := some 4, product_id := none } : CatalogItem).recipe_id
          = some 4
      ∧ ({ name := "n", description := "d", picture_file := "p",
           unit_price_ati := 0, is_available := false, is_displayed := true,
           recipe_id := some 4, product_id := none } : CatalogItem).product_id
          = none)
    ∨ (({ name := "n", description := "d", picture_file := "p",
          unit_price_ati := 0, is_available := false, is_displayed := true,
          recipe_id := some 4, product_id := none } : CatalogItem).product_id
          = some 4
      ∧ ({ name := "n", description := "d", picture_file := "p",
           unit_price_ati := 0, is_available := false, is_displayed := true,
           recipe_id := some 4, product_id := none } : CatalogItem).recipe_id
          = none) :=
  (c7_catalog_item_parent "n" "recipe" 4 "d" "p" 0 ⟨0⟩).2
    { name := "n", description := "d", picture_file := "p",
      unit_price_ati := 0, is_available := false, is_displayed := true,
      recipe_id := some 4, product_id := none } ⟨1196435762⟩ rfl


/-! ## Claim C9: the Address generator -/

/-- C9: requesting `n` addresses yields exactly `n` records, each with
country "France" and a space-free postal code; and address
construction never propagates a parse failure — whenever the street
line fails the "<number>, <street>" pattern, the provider's
synthesized building number is used as the house number. -/
theorem c9_address_generator (n : Nat) (fa fb fp : Nat → String)
    (street b p : String) (hfail : parseStreet street = none) :
    (RandomDataGenerator.addresses n fa fb fp).length = n
    ∧ (∀ a ∈ RandomDataGenerator.addresses n fa fb fp,
        a.country = some "France" ∧ ' ' ∉ a.zip_code.data)
    ∧ (FakeAddress.fromStreet street b p).home_number = b := by
  refine ⟨?_, ?_, ?_⟩
  · simp [RandomDataGenerator.addresses]
  · intro a ha
    simp only [RandomDataGenerator.addresses, List.mem_map] at ha
    obtain ⟨i, -, hi⟩ := ha
    subst hi
    exact ⟨fakeAddress_country _ _ _, fakeAddress_zip_no_space _ _ _⟩
  · simp only [FakeAddress.fromStreet, hfail]

/-- C9 witness: three addresses from constant providers, and a street
line with no leading house number falling back to the provided
building number. -/
theorem c9_witness :
    (RandomDataGenerator.addresses 3 (fun _ => "4, rue des Lilas")
        (fun _ => "9") (fun _ => "75 001")).length = 3
    ∧ (∀ a ∈ RandomDataGenerator.addresses 3 (fun _ => "4, rue des Lilas")
        (fun _ => "9") (fun _ => "75 001"),
        a.country = some "France" ∧ ' ' ∉ a.zip_code.data)
    ∧ (FakeAddress.fromStreet "Rue de la Paix" "7" "75 001").home_number
        = "7" :=
  c9_address_generator 3 (fun _ => "4, rue des Lilas") (fun _ => "9")
    (fun _ => "75 001") "Rue de la Paix" "7" "75 001" (by decide)

/-! ## Claim C10: the Pizzeria generator -/

/-- C10 counterexample: with exactly one available address id and seed
0, all five stores end up with a null address — the padded list is
shuffled, so it is false that exactly the surplus stores (here 4 of
them) receive the null reference; the available id may go unused. -/
theorem c10_counterexample :
    ¬ ((((RandomDataGenerator.pizzerias [some 1] ⟨0⟩ (fun _ => "p")).1.filter
          (fun q => q.address_id = none)).length)
        = 5 - ([some 1] : List (Option Nat)).length) := by
  decide

/-- First five positions of a list of length at least 5, as `getD`
reads them, are exactly its 5-element prefix. -/
theorem getD_first_five (l : List (Option Nat)) (h : 5 ≤ l.length) :
    [l.getD 0 none, l.getD 1 none, l.getD 2 none, l.getD 3 none,
     l.getD 4 none] = l.take 5 := by
  match l, h with
  | a :: b :: c :: d :: e :: rest, _ => simp [List.getD]

/-- Each option is counted exactly once between "is null" and
"is non-null". -/
theorem countP_none_add_isSome (l : List (Option Nat)) :
    l.countP (fun o => o = none) + l.countP (fun o => o.isSome) = l.length := by
  induction l with
  | nil => rfl
  | cons x xs ih =>
    cases x <;> simp [List.countP_cons] <;> omega

/-- C10 (amended): for every address-id list the pizzerias generator
yields exactly 5 records, one per fixed store name in order, and never
fails or truncates; when fewer than 5 ids are available the id list is
padded with nulls and shuffled, so at least the surplus number of
stores (possibly more — which stores is random, and an available id
can go unused) receive a null address reference. -/
theorem c10_pizzerias (ids : List (Option Nat)) (r : Rng) (f : Nat → String) :
    (RandomDataGenerator.pizzerias ids r f).1.length = 5
    ∧ (RandomDataGenerator.pizzerias ids r f).1.map Pizzeria.name
        = pizzeriaNames
    ∧ (ids.length < 5 →
        5 - ids.length ≤
          ((RandomDataGenerator.pizzerias ids r f).1.filter
            (fun q => q.address_id = none)).length) := by
  refine ⟨?_, ?_, ?_⟩
  · simp only [RandomDataGenerator.pizzerias, List.length_map,
      List.enum_length]
    rfl
  · simp only [RandomDataGenerator.pizzerias, List.map_map]
    have hcomp : (Pizzeria.name ∘ fun p : Nat × String =>
        FakePizzeria.make p.2
          (((if ids.length < 5
             then shuffle (ids ++ List.replicate 5 none) r
             else (ids, r)).1).getD p.1 none) (f p.1)) = Prod.snd := by
      funext q
      rfl
    rw [hcomp, List.enum_map_snd]
  · intro hlt
    simp only [RandomDataGenerator.pizzerias, if_pos hlt]
    have hperm : ((shuffle (ids ++ List.replicate 5 none) r).1).Perm
        (ids ++ List.replicate 5 none) := shuffle_perm _ _
    have hlen : ((shuffle (ids ++ List.replicate 5 none) r).1).length
        = ids.length + 5 := by
      rw [hperm.length_eq, List.length_append, List.length_replicate]
    have hmap : ((pizzeriaNames.enum.map
        (fun p : Nat × String => FakePizzeria.make p.2
          (((shuffle (ids ++ List.replicate 5 none) r).1).getD p.1 none)
          (f p.1))).map Pizzeria.address_id)
        = ((shuffle (ids ++ List.replicate 5 none) r).1).take 5 := by
      rw [List.map_map]
      show [((shuffle (ids ++ List.replicate 5 none) r).1).getD 0 none,
            ((shuffle (ids ++ List.replicate 5 none) r).1).getD 1 none,
            ((shuffle (ids ++ List.replicate 5 none) r).1).getD 2 none,
            ((shuffle (ids ++ List.replicate 5 none) r).1).getD 3 none,
            ((shuffle (ids ++ List.replicate 5 none) r).1).getD 4 none]
          = _
      exact getD_first_five _ (by omega)
    rw [← List.countP_eq_length_filter]
    have hcount : (pizzeriaNames.enum.map
        (fun p : Nat × String => FakePizzeria.make p.2
          (((shuffle (ids ++ List.replicate 5 none) r).1).getD p.1 none)
          (f p.1))).countP (fun q => q.address_id = none)
        = (((shuffle (ids ++ List.replicate 5 none) r).1).take 5).countP
            (fun o => o = none) := by
      simp only [← hmap, List.map_map, List.countP_map]
      apply List.countP_congr
      intro q hq
      rfl
    rw [hcount]
    have hsome_le : ((((shuffle (ids ++ List.replicate 5 none) r).1).take
        5).countP (fun o : Option Nat => o.isSome)) ≤ ids.length := by
      calc (((shuffle (ids ++ List.replicate 5 none) r).1).take 5).countP
            (fun o : Option Nat => o.isSome)
          ≤ ((shuffle (ids ++ List.replicate 5 none) r).1).countP
            (fun o : Option Nat => o.isSome) :=
            (List.take_sublist 5 _).countP_le _
        _ = (ids ++ List.replicate 5 none).countP
            (fun o : Option Nat => o.isSome) := hperm.countP_eq _
        _ = ids.countP (fun o : Option Nat => o.isSome) := by
            rw [List.countP_append, List.countP_replicate]
            simp
        _ ≤ ids.length := List.countP_le_length _
    have htake_len : ((((shuffle (ids ++ List.replicate 5 none) r).1).take
        5).length) = 5 := by
      rw [List.length_take]
      omega
    have hnone := countP_none_add_isSome
      (((shuffle (ids ++ List.replicate 5 none) r).1).take 5)
    omega

/-- C10 witness: one available address id, seed 0. -/
theorem c10_witness :
    (RandomDataGenerator.pizzerias [some 1] ⟨0⟩ (fun _ => "p")).1.length = 5
    ∧ (RandomDataGenerator.pizzerias [some 1] ⟨0⟩ (fun _ => "p")).1.map
        Pizzeria.name = pizzeriaNames
    ∧ 5 - ([some 1] : List (Option Nat)).length ≤
        ((RandomDataGenerator.pizzerias [some 1] ⟨0⟩ (fun _ => "p")).1.filter
          (fun q => q.address_id = none)).length :=
  ⟨(c10_pizzerias [some 1] ⟨0⟩ (fun _ => "p")).1,
   (c10_pizzerias [some 1] ⟨0⟩ (fun _ => "p")).2.1,
   (c10_pizzerias [some 1] ⟨0⟩ (fun _ => "p")).2.2 (by decide)⟩

/-! ## Claim C8: generators and their list arguments -/

/-- C8 counterexample: the pizzerias generator does mutate the id list
passed in — with a single address id it comes back with five null
entries appended (and shuffled), so the list is not unchanged. -/
theorem c8_counterexample :
    (RandomDataGenerator.pizzerias [some 1] ⟨0⟩ (fun _ => "p")).2.1
      ≠ [some 1] := by
  decide

/-- C8 (amended): the generators are not free of side effects on their
list arguments.  `members`, `user_accounts` and `taken_orders` shuffle
the id pools in place — the returned lists are permutations of the
originals (content preserved as a multiset, order in general not) —
and `pizzerias` leaves a list of 5 or more ids untouched but pads a
shorter list with five nulls and shuffles it. -/
theorem c8_generator_mutation :
    (∀ (aids pids : List Nat) (size : Nat) (r : Rng) (fl ff : Nat → String)
        (ms : List Member) (sh : List Nat) (r2 : Rng),
      RandomDataGenerator.members aids pids size r fl ff = .ok (ms, sh, r2) →
        sh.Perm aids)
    ∧ (∀ (mids : List Nat) (size : Nat) (r : Rng) (fe fp fh : Nat → String)
        (uas : List UserAccount) (sh : List Nat) (r2 : Rng),
      RandomDataGenerator.user_accounts mids size r fe fp fh
          = .ok (uas, sh, r2) → sh.Perm mids)
    ∧ (∀ (mids aids pids sids : List Nat) (size : Nat) (r : Rng)
        (ts : List TakenOrder) (m2 a2 : List Nat) (r2 : Rng),
      RandomDataGenerator.taken_orders mids aids pids sids size r
          = .ok (ts, m2, a2, r2) → m2.Perm mids ∧ a2.Perm aids)
    ∧ (∀ (ids : List (Option Nat)) (r : Rng) (f : Nat → String),
        5 ≤ ids.length → (RandomDataGenerator.pizzerias ids r f).2.1 = ids)
    ∧ (∀ (ids : List (Option Nat)) (r : Rng) (f : Nat → String),
        ids.length < 5 →
          ((RandomDataGenerator.pizzerias ids r f).2.1).Perm
            (ids ++ List.replicate 5 none)) := by
  refine ⟨?_, ?_, ?_, ?_, ?_⟩
  · intro aids pids size r fl ff ms sh r2 h
    by_cases hlt : aids.length < size
    · simp [RandomDataGenerator.members, hlt] at h
    · simp only [RandomDataGenerator.members, if_neg hlt] at h
      split at h
      · exact Except.noConfusion h
      · injection h with h
        injection h with h1 h23
        injection h23 with h2 h3
        rw [← h2]
        exact shuffle_perm _ _
  · intro mids size r fe fp fh uas sh r2 h
    by_cases hlt : mids.length < size
    · simp [RandomDataGenerator.user_accounts, hlt] at h
    · simp only [RandomDataGenerator.user_accounts, if_neg hlt] at h
      injection h with h
      injection h with h1 h23
      injection h23 with h2 h3
      rw [← h2]
      exact shuffle_perm _ _
  · intro mids aids pids sids size r ts m2 a2 r2 h
    by_cases hlt1 : mids.length < size
    · simp [RandomDataGenerator.taken_orders, hlt1] at h
    · by_cases hlt2 : aids.length < size
      · simp [RandomDataGenerator.taken_orders, hlt1, hlt2] at h
      · simp only [RandomDataGenerator.taken_orders, if_neg hlt1,
          if_neg hlt2] at h
        split at h
        · exact Except.noConfusion h
        · injection h with h
          injection h with h1 h234
          injection h234 with h2 h34
          injection h34 with h3 h4
          constructor
          · rw [← h2]
            exact shuffle_perm _ _
          · rw [← h3]
            exact shuffle_perm _ _
  · intro ids r f hge
    simp only [RandomDataGenerator.pizzerias, if_neg (Nat.not_lt.mpr hge)]
  · intro ids r f hlt
    simp only [RandomDataGenerator.pizzerias, if_pos hlt]
    exact shuffle_perm _ _

/-- C8 witness: concrete shuffles — three member ids come back
reordered but with the same content, and a long-enough address list is
returned to the pizzerias caller unchanged. -/
theorem c8_witness :
    ([2, 1, 3] : List Nat).Perm [1, 2, 3]
    ∧ (RandomDataGenerator.pizzerias
        [some 1, some 2, some 3, some 4, some 5] ⟨0⟩ (fun _ => "p")).2.1
        = [some 1, some 2, some 3, some 4, some 5]
    ∧ ((RandomDataGenerator.pizzerias [some 1] ⟨0⟩ (fun _ => "p")).2.1).Perm
        ([some 1] ++ List.replicate 5 none) :=
  ⟨c8_generator_mutation.2.1 [1, 2, 3] 2 ⟨0⟩ (fun _ => "e") (fun _ => "p")
      (fun _ => "h")
      [{ email := "e", phone_nb := "0", member_id := 2, hashed_pwd := "h" },
       { email := "e", phone_nb := "0", member_id := 1, hashed_pwd := "h" }]
      [2, 1, 3] ⟨3519870697⟩ rfl,
   c8_generator_mutation.2.2.2.1 [some 1, some 2, some 3, some 4, some 5]
      ⟨0⟩ (fun _ => "p") (by decide),
   c8_generator_mutation.2.2.2.2 [some 1] ⟨0⟩ (fun _ => "p") (by decide)⟩

/-! ## Claim C4: insufficient foreign-key pools fail before inserting -/

/-- C4: whenever an id pool is strictly smaller than the requested
count, the consuming generator raises the insufficient-input
`ValueError` — and the corresponding feeder stage propagates that
error without performing a single INSERT: the stage returns the error
and no updated store, so no row of that stage reaches the gateway. -/
theorem c4_insufficient_input (mids aids pids sids oids : List Nat)
    (size : Nat) (r : Rng) (fl ff fe fp fh fdate : Nat → String)
    (fam : Nat → Rat) (fd : Feeder) (db : Db) :
    (mids.length < size →
      RandomDataGenerator.user_accounts mids size r fe fp fh
        = .error "Not enough member_ids")
    ∧ (aids.length < size →
      RandomDataGenerator.members aids pids size r fl ff
        = .error "Not enough address_ids")
    ∧ (mids.length < size →
      RandomDataGenerator.taken_orders mids aids pids sids size r
        = .error "Not enough member_ids")
    ∧ (¬ mids.length < size → aids.length < size →
      RandomDataGenerator.taken_orders mids aids pids sids size r
        = .error "Not enough address_ids")
    ∧ (oids.length < size →
      RandomDataGenerator.bills oids size fdate fam
        = .error "Not enough taken_order_ids")
    ∧ (fd.member_ids.length < fd.size →
      DatabaseFeeder.insertUserAccounts fd db r fe fp fh
        = .error "Not enough member_ids")
    ∧ (fd.address_ids.length < fd.size →
      DatabaseFeeder.insertMembers fd db r fl ff
        = .error "Not enough address_ids")
    ∧ (fd.member_ids.length < fd.size →
      DatabaseFeeder.insertTakenOrders fd db r
        = .error "Not enough member_ids")
    ∧ (fd.taken_order_ids.length < fd.size →
      DatabaseFeeder.insertBills fd db fdate fam
        = .error "Not enough taken_order_ids") := by
  refine ⟨?_, ?_, ?_, ?_, ?_, ?_, ?_, ?_, ?_⟩
  · intro h
    simp [RandomDataGenerator.user_accounts, if_pos h]
  · intro h
    simp [RandomDataGenerator.members, if_pos h]
  · intro h
    simp [RandomDataGenerator.taken_orders, if_pos h]
  · intro h1 h2
    simp [RandomDataGenerator.taken_orders, if_neg h1, if_pos h2]
  · intro h
    simp [RandomDataGenerator.bills, if_pos h]
  · intro h
    simp [DatabaseFeeder.insertUserAccounts,
      RandomDataGenerator.user_accounts, if_pos h]
  · intro h
    simp [DatabaseFeeder.insertMembers, RandomDataGenerator.members,
      if_pos h]
  · intro h
    simp [DatabaseFeeder.insertTakenOrders,
      RandomDataGenerator.taken_orders, if_pos h]
  · intro h
    simp [DatabaseFeeder.insertBills, RandomDataGenerator.bills, if_pos h]

/-- C4 witness: pools of one id with a requested count of two. -/
theorem c4_witness :
    RandomDataGenerator.user_accounts [1] 2 ⟨0⟩ (fun _ => "e") (fun _ => "p")
        (fun _ => "h") = .error "Not enough member_ids"
    ∧ RandomDataGenerator.members [1] [1] 2 ⟨0⟩ (fun _ => "n") (fun _ => "f")
        = .error "Not enough address_ids"
    ∧ RandomDataGenerator.taken_orders [1] [1] [1] [1] 2 ⟨0⟩
        = .error "Not enough member_ids"
    ∧ RandomDataGenerator.taken_orders [1, 2] [1] [1] [1] 2 ⟨0⟩
        = .error "Not enough address_ids"
    ∧ RandomDataGenerator.bills [1] 2 (fun _ => "d") (fun _ => 0)
        = .error "Not enough taken_order_ids"
    ∧ DatabaseFeeder.insertUserAccounts { size := 2, member_ids := [1] } {}
        ⟨0⟩ (fun _ => "e") (fun _ => "p") (fun _ => "h")
        = .error "Not enough member_ids"
    ∧ DatabaseFeeder.insertMembers { size := 2, address_ids := [1] } {}
        ⟨0⟩ (fun _ => "n") (fun _ => "f")
        = .error "Not enough address_ids"
    ∧ DatabaseFeeder.insertTakenOrders { size := 2, member_ids := [1] } {}
        ⟨0⟩ = .error "Not enough member_ids"
    ∧ DatabaseFeeder.insertBills { size := 2, taken_order_ids := [1] } {}
        (fun _ => "d") (fun _ => 0) = .error "Not enough taken_order_ids" := by
  have h := c4_insufficient_input [1] [1] [1] [1] [1] 2 ⟨0⟩
    (fun _ => "n") (fun _ => "f") (fun _ => "e") (fun _ => "p") (fun _ => "h")
    (fun _ => "d") (fun _ => 0) { size := 2, member_ids := [1] } {}
  have h2 := c4_insufficient_input [1, 2] [1] [1] [1] [1] 2 ⟨0⟩
    (fun _ => "n") (fun _ => "f") (fun _ => "e") (fun _ => "p") (fun _ => "h")
    (fun _ => "d") (fun _ => 0) { size := 2, address_ids := [1] } {}
  have h3 := c4_insufficient_input [1] [1] [1] [1] [1] 2 ⟨0⟩
    (fun _ => "n") (fun _ => "f") (fun _ => "e") (fun _ => "p") (fun _ => "h")
    (fun _ => "d") (fun _ => 0) { size := 2, taken_order_ids := [1] } {}
  exact ⟨h.1 (by decide), h.2.1 (by decide), h.2.2.1 (by decide),
    h2.2.2.2.1 (by decide) (by decide), h.2.2.2.2.1 (by decide),
    h.2.2.2.2.2.1 (by decide), h2.2.2.2.2.2.2.1 (by decide),
    h.2.2.2.2.2.2.2.1 (by decide), h3.2.2.2.2.2.2.2.2 (by decide)⟩

/-! ## Claim C5: the association populator attempt loop -/

theorem runRelationLoop_ok {σ : Type} (rows : σ → Nat)
    (cb : σ → Except DbError σ)
    (hrow : ∀ s s2, cb s = .ok s2 → rows s2 ≤ rows s + 1) :
    ∀ (n : Nat) (st st2 : σ) (c : Nat),
      runRelationLoop cb n st = .ok (st2, c) →
        c = n ∧ rows st2 ≤ rows st + n := by
  intro n
  induction n with
  | zero =>
    intro st st2 c h
    simp only [runRelationLoop] at h
    injection h with h
    injection h with h1 h2
    subst h1
    subst h2
    exact ⟨rfl, Nat.le_refl _⟩
  | succ n ih =>
    intro st st2 c h
    simp only [runRelationLoop] at h
    split at h
    · rename_i stNext hcb
      split at h
      · exact Except.noConfusion h
      · rename_i st3 cPrev hrec
        injection h with h
        injection h with h1 h2
        obtain ⟨hc, hr⟩ := ih stNext st3 cPrev hrec
        have hstep := hrow st stNext hcb
        subst h1
        subst h2
        exact ⟨by omega, by omega⟩
    · rename_i hcb
      split at h
      · exact Except.noConfusion h
      · rename_i st3 cPrev hrec
        injection h with h
        injection h with h1 h2
        obtain ⟨hc, hr⟩ := ih st st3 cPrev hrec
        subst h1
        subst h2
        exact ⟨by omega, by omega⟩
    · exact Except.noConfusion h

theorem insertRelationsManyToMany_ok {σ : Type} (rows : σ → Nat) :
    ∀ (callbacks : List (σ → Except DbError σ)),
      (∀ cb ∈ callbacks, ∀ s s2, cb s = .ok s2 → rows s2 ≤ rows s + 1) →
      ∀ (size : Nat) (st st2 : σ) (cs : List Nat),
        DatabaseFeeder.insertRelationsManyToMany callbacks size st
            = .ok (st2, cs) →
          cs = List.replicate callbacks.length size
          ∧ rows st2 ≤ rows st + callbacks.length * size := by
  intro callbacks
  induction callbacks with
  | nil =>
    intro hrow size st st2 cs h
    simp only [DatabaseFeeder.insertRelationsManyToMany] at h
    injection h with h
    injection h with h1 h2
    subst h1
    subst h2
    exact ⟨rfl, by simp⟩
  | cons cb rest ih =>
    intro hrow size st st2 cs h
    simp only [DatabaseFeeder.insertRelationsManyToMany] at h
    split at h
    · exact Except.noConfusion h
    · rename_i stMid cMid hrun
      split at h
      · exact Except.noConfusion h
      · rename_i stFin csRest hrest
        injection h with h
        injection h with h1 h2
        obtain ⟨hc1, hr1⟩ := runRelationLoop_ok rows cb
          (hrow cb (List.mem_cons_self _ _)) size st stMid cMid hrun
        obtain ⟨hc2, hr2⟩ := ih
          (fun c hc => hrow c (List.mem_cons_of_mem _ hc)) size stMid stFin
          csRest hrest
        subst h1
        subst h2
        constructor
        · rw [List.length_cons, List.replicate_succ, hc2, hc1]
        · rw [List.length_cons, Nat.succ_mul]
          omega

/-- C5: for every relation and batch size `K` the association
populator makes exactly `K` insertion attempts (the attempt count of
every relation in a successful run is `K`), inserts at most `K` rows
per relation (at most one row per `ok` attempt); an integrity conflict
raised during an attempt is swallowed and the loop continues with the
state unchanged, while any non-uniqueness gateway error propagates and
aborts the run. -/
theorem c5_association_populator {σ : Type} (rows : σ → Nat)
    (callbacks : List (σ → Except DbError σ))
    (hrow : ∀ cb ∈ callbacks, ∀ s s2, cb s = .ok s2 → rows s2 ≤ rows s + 1) :
    (∀ cb ∈ callbacks, ∀ (n : Nat) (st st2 : σ) (c : Nat),
      runRelationLoop cb n st = .ok (st2, c) →
        c = n ∧ rows st2 ≤ rows st + n)
    ∧ (∀ (cb : σ → Except DbError σ) (n : Nat) (st : σ),
        cb st = .error .integrity →
          runRelationLoop cb (n + 1) st
            = (runRelationLoop cb n st).map (fun p => (p.1, p.2 + 1)))
    ∧ (∀ (cb : σ → Except DbError σ) (n : Nat) (st : σ) (msg : String),
        cb st = .error (.other msg) →
          runRelationLoop cb (n + 1) st = .error msg)
    ∧ (∀ (size : Nat) (st st2 : σ) (cs : List Nat),
        DatabaseFeeder.insertRelationsManyToMany callbacks size st
            = .ok (st2, cs) →
          cs = List.replicate callbacks.length size
          ∧ rows st2 ≤ rows st + callbacks.length * size) := by
  refine ⟨?_, ?_, ?_, ?_⟩
  · intro cb hcb
    exact runRelationLoop_ok rows cb (hrow cb hcb)
  · intro cb n st hint
    simp only [runRelationLoop, hint]
    rcases hrec : runRelationLoop cb n st with e | p
    · rfl
    · rfl
  · intro cb n st msg hoth
    simp only [runRelationLoop, hoth]
  · exact insertRelationsManyToMany_ok rows callbacks hrow

/-- The has-permission-to callback inserts at most one association row
per successful attempt. -/
theorem insertHasPermissionTo_row_bound (role_ids permission_ids : List Nat) :
    ∀ s s2, insertHasPermissionTo role_ids permission_ids s = .ok s2 →
      s2.1.rows.length ≤ s.1.rows.length + 1 := by
  intro s s2 h
  obtain ⟨t, r⟩ := s
  simp only [insertHasPermissionTo] at h
  split at h
  · exact Except.noConfusion h
  · rename_i key r2 hs
    split at h
    · exact Except.noConfusion h
    · rename_i t2 hins
      injection h with h
      subst h
      simp only [AssocTable.insert] at hins
      by_cases hmem : key ∈ t.rows
      · rw [if_pos hmem] at hins
        exact Except.noConfusion hins
      · rw [if_neg hmem] at hins
        injection hins with hins
        subst hins
        simp

/-- C5 witness: one relation (role 1, permission 1), three attempts on
an empty table: the run succeeds with an attempt count of exactly 3
and at most 3 inserted rows (here 1 — the two later attempts hit the
uniqueness conflict and are discarded). -/
theorem c5_witness :
    ([3] : List Nat) = List.replicate 1 3
    ∧ (({ rows := [(1, 1)] } : AssocTable),
        (⟨1196435762⟩ : Rng)).1.rows.length
        ≤ (({ rows := [] } : AssocTable), (⟨0⟩ : Rng)).1.rows.length
          + 1 * 3 :=
  (c5_association_populator
      (fun s : AssocTable × Rng => s.1.rows.length)
      [insertHasPermissionTo [1] [1]]
      (by
        intro cb hcb s s2 h
        have hc : cb = insertHasPermissionTo [1] [1] := by
          simpa using hcb
        rw [hc] at h
        exact insertHasPermissionTo_row_bound [1] [1] s s2 h)).2.2.2
    3 (({ rows := [] } : AssocTable), (⟨0⟩ : Rng))
    (({ rows := [(1, 1)] } : AssocTable), (⟨1196435762⟩ : Rng)) [3] rfl

/-! ## Claim C1: identifier capture after the insertion stages -/

theorem range_map_add (next n : Nat) :
    (List.range (n + 1)).map (fun i => next + i)
      = next :: (List.range n).map (fun i => next + 1 + i) := by
  rw [List.range_succ_eq_map, List.map_cons, List.map_map]
  have h2 : ((fun i => next + i) ∘ Nat.succ) = (fun i => next + 1 + i) := by
    funext i
    simp only [Function.comp]
    omega
  rw [h2]
  simp

theorem foldl_insertAddress_spec :
    ∀ (l : List Address) (db : Db),
      ((l.foldl Db.insertAddress db).addressTable.map AddressRow.id
        = db.addressTable.map AddressRow.id
          ++ (List.range l.length).map (fun i => db.nextAddressId + i))
      ∧ (l.foldl Db.insertAddress db).nextAddressId
          = db.nextAddressId + l.length := by
  intro l
  induction l with
  | nil =>
    intro db
    simp
  | cons a tl ih =>
    intro db
    obtain ⟨hmap, hnext⟩ := ih (db.insertAddress a)
    have htab : (db.insertAddress a).addressTable.map AddressRow.id
        = db.addressTable.map AddressRow.id ++ [db.nextAddressId] := by
      simp [Db.insertAddress]
    have hnextA : (db.insertAddress a).nextAddressId
        = db.nextAddressId + 1 := rfl
    constructor
    · rw [List.foldl_cons, hmap, htab, hnextA, List.length_cons,
        range_map_add, List.append_assoc]
      rfl
    · rw [List.foldl_cons, hnext, hnextA, List.length_cons]
      omega

theorem foldl_insertMember_spec :
    ∀ (l : List Member) (db : Db),
      ((l.foldl Db.insertMember db).memberTable.map MemberRow.id
        = db.memberTable.map MemberRow.id
          ++ (List.range l.length).map (fun i => db.nextMemberId + i))
      ∧ (l.foldl Db.insertMember db).nextMemberId
          = db.nextMemberId + l.length := by
  intro l
  induction l with
  | nil =>
    intro db
    simp
  | cons a tl ih =>
    intro db
    obtain ⟨hmap, hnext⟩ := ih (db.insertMember a)
    have htab : (db.insertMember a).memberTable.map MemberRow.id
        = db.memberTable.map MemberRow.id ++ [db.nextMemberId] := by
      simp [Db.insertMember]
    have hnextA : (db.insertMember a).nextMemberId
        = db.nextMemberId + 1 := rfl
    constructor
    · rw [List.foldl_cons, hmap, htab, hnextA, List.length_cons,
        range_map_add, List.append_assoc]
      rfl
    · rw [List.foldl_cons, hnext, hnextA, List.length_cons]
      omega

theorem membersLoop_length (pOpts : List (Option Nat)) (aids : List Nat)
    (fl ff : Nat → String) :
    ∀ (k i : Nat) (r : Rng) (ms : List Member) (r2 : Rng),
      membersLoop pOpts aids fl ff i k r = .ok (ms, r2) → ms.length = k := by
  intro k
  induction k with
  | zero =>
    intro i r ms r2 h
    simp only [membersLoop] at h
    injection h with h
    injection h with h1 h2
    subst h1
    rfl
  | succ k ih =>
    intro i r ms r2 h
    simp only [membersLoop] at h
    split at h
    · exact Except.noConfusion h
    · rename_i pz r3 hchoice
      split at h
      · exact Except.noConfusion h
      · rename_i ms2 r4 hrec
        injection h with h
        injection h with h1 h2
        subst h1
        simp [ih (i + 1) r3 ms2 r4 hrec]

theorem members_ok_length (aids pids : List Nat) (size : Nat) (r : Rng)
    (fl ff : Nat → String) (ms : List Member) (sh : List Nat) (r2 : Rng)
    (h : RandomDataGenerator.members aids pids size r fl ff
      = .ok (ms, sh, r2)) : ms.length = size := by
  by_cases hlt : aids.length < size
  · simp [RandomDataGenerator.members, hlt] at h
  · simp only [RandomDataGenerator.members, if_neg hlt] at h
    split at h
    · exact Except.noConfusion h
    · rename_i ms2 r3 hloop
      injection h with h
      injection h with h1 h23
      rw [← h1]
      exact membersLoop_length _ _ _ _ size 0 _ ms2 r3 hloop

/-- A store state whose address table is already populated (id 1) from
an earlier run. -/
def c1PreDb : Db :=
  { addressTable :=
      [{ id := 1,
         row :=
           { street_name := "s",
             home_number := "1",
             zip_code := "75001",
             country := some "France" } }],
    nextAddressId := 2 }

/-- C1 counterexample: against a store whose address table already
holds a row with id 1, running the address stage with `size = 1`
refreshes the pool to [1, 2] — the pre-existing identifier 1 is
captured alongside the newly inserted id 2, because the stage re-reads
the whole table. -/
theorem c1_counterexample :
    (1 : Nat) ∈ c1PreDb.addressTable.map AddressRow.id
    ∧ (DatabaseFeeder.insertAddresses { size := 1 } c1PreDb
        (fun _ => "3, rue x") (fun _ => "9")
        (fun _ => "75001")).1.address_ids = [1, 2] := by
  constructor
  · decide
  · have h := (foldl_insertAddress_spec
      (RandomDataGenerator.addresses 1 (fun _ => "3, rue x") (fun _ => "9")
        (fun _ => "75001")) c1PreDb).1
    have hlen : (RandomDataGenerator.addresses 1 (fun _ => "3, rue x")
        (fun _ => "9") (fun _ => "75001")).length = 1 := by
      simp [RandomDataGenerator.addresses]
    rw [hlen] at h
    simpa [DatabaseFeeder.insertAddresses, c1PreDb] using h

/-- C1 (amended): after the address stage the Reference Pool holds the
identifiers of every row in the address table — those of the rows just
inserted (the `size` fresh consecutive ids) together with those of any
rows that already existed before the stage; only when the table was
empty beforehand is the pool exactly the inserted ids.  The member
stage behaves the same way. -/
theorem c1_pool_refresh (fd : Feeder) (db : Db)
    (fa fb fp fl ff : Nat → String) (r : Rng) :
    ((DatabaseFeeder.insertAddresses fd db fa fb fp).1.address_ids
       = db.addressTable.map AddressRow.id
         ++ (List.range fd.size).map (fun i => db.nextAddressId + i))
    ∧ (db.addressTable = [] →
        (DatabaseFeeder.insertAddresses fd db fa fb fp).1.address_ids
          = (List.range fd.size).map (fun i => db.nextAddressId + i))
    ∧ (∀ out, DatabaseFeeder.insertMembers fd db r fl ff = .ok out →
        out.1.member_ids
          = db.memberTable.map MemberRow.id
            ++ (List.range fd.size).map (fun i => db.nextMemberId + i)
        ∧ (db.memberTable = [] →
            out.1.member_ids
              = (List.range fd.size).map (fun i => db.nextMemberId + i))) := by
  have haddr : (DatabaseFeeder.insertAddresses fd db fa fb fp).1.address_ids
      = db.addressTable.map AddressRow.id
        ++ (List.range fd.size).map (fun i => db.nextAddressId + i) := by
    have h := (foldl_insertAddress_spec
      (RandomDataGenerator.addresses fd.size fa fb fp) db).1
    have hlen : (RandomDataGenerator.addresses fd.size fa fb fp).length
        = fd.size := by
      simp [RandomDataGenerator.addresses]
    rw [hlen] at h
    simpa [DatabaseFeeder.insertAddresses] using h
  refine ⟨haddr, ?_, ?_⟩
  · intro he
    rw [haddr, he]
    rfl
  · intro out h
    simp only [DatabaseFeeder.insertMembers] at h
    split at h
    · exact Except.noConfusion h
    · rename_i ms sh r2 hgen
      injection h with h
      have hms : ms.length = fd.size :=
        members_ok_length fd.address_ids fd.pizzeria_ids fd.size r fl ff
          ms sh r2 hgen
      have hfold := (foldl_insertMember_spec ms db).1
      rw [hms] at hfold
      have hout : out.1.member_ids
          = (ms.foldl Db.insertMember db).memberTable.map MemberRow.id := by
        rw [← h]
      constructor
      · rw [hout, hfold]
      · intro he
        rw [hout, hfold, he]
        rfl

/-- The feeder/store/rng triple produced by the member stage of the
C1 witness run (size 1, address pool [7], pizzeria pool [3], seed 0,
empty store). -/
def c1OutW : Feeder × Db × Rng :=
  ({ size := 1,
     address_ids := [7],
     pizzeria_ids := [3],
     member_ids := [1] },
   { memberTable :=
       [{ id := 1,
          name := "n",
          firstname := "f",
          works_at_pizzeria_id := some 3,
          user_account_id := none,
          address_id := 7,
          role_id := none }],
     nextMemberId := 2 },
   ⟨3519870697⟩)

/-- C1 witness: two addresses into an empty store capture exactly ids
[1, 2]; one member into an empty store captures exactly id [1]. -/
theorem c1_witness :
    ((DatabaseFeeder.insertAddresses { size := 2 } {} (fun _ => "x")
        (fun _ => "y") (fun _ => "z")).1.address_ids
      = (({} : Db).addressTable.map AddressRow.id)
        ++ (List.range 2).map (fun i => ({} : Db).nextAddressId + i))
    ∧ (c1OutW.1.member_ids
      = (({} : Db).memberTable.map MemberRow.id)
        ++ (List.range 1).map (fun i => ({} : Db).nextMemberId + i)) :=
  ⟨(c1_pool_refresh { size := 2 } {} (fun _ => "x") (fun _ => "y")
      (fun _ => "z") (fun _ => "n") (fun _ => "f") ⟨0⟩).1,
   ((c1_pool_refresh { size := 1, address_ids := [7], pizzeria_ids := [3] }
      {} (fun _ => "x") (fun _ => "y") (fun _ => "z") (fun _ => "n")
      (fun _ => "f") ⟨0⟩).2.2 c1OutW rfl).1⟩

/-! ## Claim C6: phase-2 role assignment -/

/-- Placeholder row used only as the `getD` default in statements. -/
def dummyMemberRow : MemberRow :=
  { id := 0, name := "", firstname := "", works_at_pizzeria_id := none,
    user_account_id := none, address_id := 0, role_id := none }

theorem getD_map_lt {α β : Type} (f : α → β) (l : List α) (i : Nat)
    (d : β) (d0 : α) (h : i < l.length) :
    (l.map f).getD i d = f (l.getD i d0) := by
  rw [List.getD_eq_getElem?_getD, List.getD_eq_getElem?_getD,
    List.getElem?_map, List.getElem?_eq_getElem h]
  rfl

theorem setMemberRole_getD (db : Db) (mid rid : Nat) (i : Nat)
    (h : i < db.memberTable.length) :
    (db.setMemberRole mid rid).memberTable.getD i dummyMemberRow
      = (if (db.memberTable.getD i dummyMemberRow).id = mid
         then { db.memberTable.getD i dummyMemberRow with
                  role_id := some rid }
         else db.memberTable.getD i dummyMemberRow) := by
  simp only [Db.setMemberRole]
  rw [getD_map_lt _ _ _ _ dummyMemberRow h]

theorem roleUpdateLoop_spec (role_ids : List Nat) (hne : role_ids ≠ []) :
    ∀ (mids : List Nat) (db : Db) (r : Rng),
      ∃ db2 r2, roleUpdateLoop role_ids mids db r = .ok (db2, r2)
        ∧ db2.memberTable.length = db.memberTable.length
        ∧ ∀ i, i < db.memberTable.length →
            ((db2.memberTable.getD i dummyMemberRow).id
                = (db.memberTable.getD i dummyMemberRow).id
            ∧ (db2.memberTable.getD i dummyMemberRow).works_at_pizzeria_id
                = (db.memberTable.getD i dummyMemberRow).works_at_pizzeria_id
            ∧ ((db.memberTable.getD i dummyMemberRow).id ∈ mids →
                ∃ rid ∈ role_ids,
                  (db2.memberTable.getD i dummyMemberRow).role_id = some rid)
            ∧ ((db.memberTable.getD i dummyMemberRow).id ∉ mids →
                (db2.memberTable.getD i dummyMemberRow).role_id
                  = (db.memberTable.getD i dummyMemberRow).role_id)) := by
  intro mids
  induction mids with
  | nil =>
    intro db r
    refine ⟨db, r, rfl, rfl, ?_⟩
    intro i hi
    exact ⟨rfl, rfl, fun hmem => absurd hmem (List.not_mem_nil _),
      fun _ => rfl⟩
  | cons mid rest ih =>
    intro db r
    obtain ⟨rid, r2, hchoice, hmem⟩ := randChoice_ne_nil role_ids r hne
    obtain ⟨db2, r3, hrun, hlen, hpt⟩ := ih (db.setMemberRole mid rid) r2
    have hlen1 : (db.setMemberRole mid rid).memberTable.length
        = db.memberTable.length := by
      simp [Db.setMemberRole]
    refine ⟨db2, r3, ?_, hlen.trans hlen1, ?_⟩
    · simp only [roleUpdateLoop, hchoice]
      exact hrun
    · intro i hi
      obtain ⟨hid, hworks, hin, hout⟩ := hpt i (by omega)
      have hset := setMemberRole_getD db mid rid i hi
      by_cases heq : (db.memberTable.getD i dummyMemberRow).id = mid
      · rw [if_pos heq] at hset
        refine ⟨?_, ?_, ?_, ?_⟩
        · rw [hid, hset]
        · rw [hworks, hset]
        · intro hmm
          by_cases hrest :
              (db.memberTable.getD i dummyMemberRow).id ∈ rest
          · apply hin
            rw [hset]
            exact hrest
          · refine ⟨rid, hmem, ?_⟩
            have hnot : ((db.setMemberRole mid rid).memberTable.getD i
                dummyMemberRow).id ∉ rest := by
              rw [hset]
              exact hrest
            rw [hout hnot, hset]
        · intro hmm
          exact absurd (by rw [heq]; exact List.mem_cons_self _ _) hmm
      · rw [if_neg heq] at hset
        refine ⟨?_, ?_, ?_, ?_⟩
        · rw [hid, hset]
        · rw [hworks, hset]
        · intro hmm
          rcases List.mem_cons.mp hmm with he | hrest
          · exact absurd he heq
          · apply hin
            rw [hset]
            exact hrest
        · intro hmm
          have hnr : (db.memberTable.getD i dummyMemberRow).id ∉ rest :=
            fun hr => hmm (List.mem_cons_of_mem _ hr)
          have hnot : ((db.setMemberRole mid rid).memberTable.getD i
              dummyMemberRow).id ∉ rest := by
            rw [hset]
            exact hnr
          rw [hout hnot, hset]

/-- C6: running `_update_members_role` with a non-empty role pool
succeeds, and afterwards every staff member (non-null
`works_at_pizzeria_id`) carries a role drawn from the Role id pool,
while every member without a staff affiliation keeps its previous
(null) role — non-staff members never receive a role.  The id-Nodup
hypothesis is the member table's primary-key invariant. -/
theorem c6_staff_role_update (db : Db) (role_ids : List Nat) (r : Rng)
    (hne : role_ids ≠ [])
    (hnd : (db.memberTable.map MemberRow.id).Nodup) :
    ∃ db2 r2, DatabaseFeeder.updateMembersRole db role_ids r = .ok (db2, r2)
      ∧ db2.memberTable.length = db.memberTable.length
      ∧ ∀ i, i < db.memberTable.length →
          (((db.memberTable.getD i dummyMemberRow).works_at_pizzeria_id.isSome →
            ∃ rid ∈ role_ids,
              (db2.memberTable.getD i dummyMemberRow).role_id = some rid)
          ∧ ((db.memberTable.getD i dummyMemberRow).works_at_pizzeria_id
              = none →
            (db2.memberTable.getD i dummyMemberRow).role_id
              = (db.memberTable.getD i dummyMemberRow).role_id)) := by
  obtain ⟨db2, r2, hrun, hlen, hpt⟩ := roleUpdateLoop_spec role_ids hne
    ((db.memberTable.filter (fun m => m.works_at_pizzeria_id.isSome)).map
      MemberRow.id) db r
  refine ⟨db2, r2, hrun, hlen, ?_⟩
  intro i hi
  obtain ⟨hid, hworks, hin, hout⟩ := hpt i hi
  have hrow_mem : db.memberTable.getD i dummyMemberRow ∈ db.memberTable := by
    rw [List.getD_eq_getElem?_getD, List.getElem?_eq_getElem hi,
      Option.getD_some]
    exact List.getElem_mem _
  constructor
  · intro hstaff
    apply hin
    exact List.mem_map_of_mem MemberRow.id
      (List.mem_filter.mpr ⟨hrow_mem, hstaff⟩)
  · intro hnone
    apply hout
    intro hmem2
    obtain ⟨m, hm_filter, hm_id⟩ := List.mem_map.mp hmem2
    obtain ⟨hm_tab, hm_staff⟩ := List.mem_filter.mp hm_filter
    have hm_eq : m = db.memberTable.getD i dummyMemberRow :=
      List.inj_on_of_nodup_map hnd hm_tab hrow_mem hm_id
    rw [hm_eq, hnone] at hm_staff
    simp at hm_staff

/-- The member table of the C6 witness: one staff member (id 1, works
at pizzeria 2) and one customer member (id 2, no staff affiliation). -/
def c6Db : Db :=
  { memberTable :=
      [{ id := 1,
         name := "a",
         firstname := "b",
         works_at_pizzeria_id := some 2,
         user_account_id := none,
         address_id := 5,
         role_id := none },
       { id := 2,
         name := "c",
         firstname := "d",
         works_at_pizzeria_id := none,
         user_account_id := none,
         address_id := 6,
         role_id := none }] }

/-- C6 witness: the two-member table with role pool [5]. -/
theorem c6_witness :
    ∃ db2 r2, DatabaseFeeder.updateMembersRole c6Db [5] ⟨0⟩ = .ok (db2, r2)
      ∧ db2.memberTable.length = c6Db.memberTable.length
      ∧ ∀ i, i < c6Db.memberTable.length →
          (((c6Db.memberTable.getD i dummyMemberRow).works_at_pizzeria_id.isSome →
            ∃ rid ∈ ([5] : List Nat),
              (db2.memberTable.getD i dummyMemberRow).role_id = some rid)
          ∧ ((c6Db.memberTable.getD i dummyMemberRow).works_at_pizzeria_id
              = none →
            (db2.memberTable.getD i dummyMemberRow).role_id
              = (c6Db.memberTable.getD i dummyMemberRow).role_id)) :=
  c6_staff_role_update c6Db [5] ⟨0⟩ (by decide) (by decide)
